import Mathlib

/-!
Shallow embedding of `@kohlmannj/react-intersection-observer` (version
7.0.0-alpha.6): the `Observer` React component of `src/index.tsx`, the
feature-detection helper `needsPolyfill` of `src/needs-polyfill.ts`, and a
model of the Observer Registry (`observe` / `unobserve` of
`src/intersection.ts`, which is imported by `index.tsx` but whose source is
not in the repository snapshot; it is modelled from the specification).

Node handles and DOM elements are opaque references, modelled as `Nat`.
Lifecycle methods become pure functions from (props, state, registry) to
(state, registry, list of emitted events), with the event list in execution
order.
-/

namespace ReactIntersectionObserver

/-- Host environment: which of the three native capabilities probed by
`needs-polyfill.ts` are present on `window`. -/
structure Window where
  hasIntersectionObserver : Bool
  hasIntersectionObserverEntry : Bool
  hasIntersectionRatioField : Bool
deriving DecidableEq, Repr

/-- Function `needsPolyfill` from `src/needs-polyfill.ts`: returns the negation of the
conjunction of the three `in`-checks (`IntersectionObserver` in window,
`IntersectionObserverEntry` in window, `intersectionRatio` in the entry
prototype); `&&` short-circuits exactly as `Bool.and` does. -/
def needsPolyfill (w : Window) : Bool :=
  !(w.hasIntersectionObserver && w.hasIntersectionObserverEntry &&
    w.hasIntersectionRatioField)

/-- A React ref object (`RefObject<any>`): an allocation identity plus its
`current` field, which holds a node handle or `null`. -/
structure RefObject where
  allocId : Nat
  current : Option Nat
deriving DecidableEq, Repr

/-- The `children` prop: either a render function of
`\x7binView, forwardedRef\x7d`, or an opaque renderable payload (possibly
`undefined`). Render output is opaque, modelled as `Nat`. -/
inductive Children where
  | renderFn (f : Bool → RefObject → Nat)
  | nodeChild (payload : Option Nat)

/-- Props `IntersectionObserverProps` after React has merged `defaultProps`:
`forwardedRef`, `threshold`, `triggerOnce` and `importPolyfill` are always
present. `onChange` is an optional callback, carried by identity. -/
structure Props where
  children : Children
  forwardedRef : RefObject
  threshold : Int
  triggerOnce : Bool
  root : Option Nat
  rootMargin : Option String
  rootId : Option String
  onChange : Option Nat
  importPolyfill : Bool

/-- State `IntersectionObserverState`: `inView : boolean` and
`intersectionObserverReady : boolean | undefined` (`none` = `undefined`). -/
structure State where
  inView : Bool
  intersectionObserverReady : Option Bool
deriving DecidableEq, Repr

/-- The initial state of `Observer`: `inView: false`,
`intersectionObserverReady: undefined`. -/
def initialState : State := ⟨false, none⟩

/-- Modelled from the spec: the Observer Registry's config key (glossary:
"the tuple of (root or rootId, rootMargin, threshold) used to decide
native-observer sharing"); an explicit `rootId` overrides the `root`
handle's identity. -/
structure ConfigKey where
  rootIdent : Option (Nat ⊕ String)
  rootMargin : Option String
  threshold : Int
deriving DecidableEq, Repr

/-- The config key derived from a component's props, per the spec rule
"compute a key from (root handle or rootId, rootMargin, threshold)". -/
def configKey (p : Props) : ConfigKey :=
  { rootIdent :=
      match p.rootId with
      | some i => some (Sum.inr i)
      | none => p.root.map Sum.inl
    rootMargin := p.rootMargin
    threshold := p.threshold }

/-- Modelled from the spec: the Observer Registry state of
`src/intersection.ts` (absent from the snapshot), flattened to the mapping
from each observed node handle to the config key of the entry whose callback
mapping contains it ("at most one, by invariant"). -/
abbrev Registry := List (Nat × ConfigKey)

/-- Observable effects, in execution order: the developer warning, the
`console.log` before the dynamic import, the resolution of the shim
`import()`, registry calls, and invocations of the owner's `onChange`. -/
inductive Event where
  | warn
  | consoleLog
  | shimImported
  | registryObserve (node : Nat) (key : ConfigKey)
  | registryUnobserve (node : Option Nat)
  | onChangeCall (inView : Bool)
deriving DecidableEq, Repr

/-- Modelled from the spec: `observe(node, onChange, config, rootId?)` stores
the callback under `node` in the entry for the derived key and starts
watching `node`. -/
def registryObserveOp (r : Registry) (node : Nat) (key : ConfigKey) :
    Registry :=
  (node, key) :: r

/-- Modelled from the spec: `unobserve(node)` finds the entry whose callback
mapping contains `node`, removes it, and is a "no-op, not an error, if
`node` is not currently registered"; `index.tsx` may pass `null` (an absent
handle), also a no-op. -/
def registryUnobserveOp (r : Registry) (node : Option Nat) : Registry :=
  match node with
  | none => r
  | some n => r.filter (fun e => e.1 ≠ n)

/-- The node handles currently registered with the registry. -/
def registeredNodes (r : Registry) : List Nat := r.map Prod.fst

/-- Modelled from the spec: the registry's dispatch "looks up the
corresponding node's registered callback by node handle and invokes it" —
so a visibility-change record for `node` produces an `onChange` invocation
exactly when `node` is registered, and nothing otherwise. -/
def registryDeliver (r : Registry) (node : Nat) (v : Bool) : List Event :=
  if node ∈ registeredNodes r then [Event.onChangeCall v] else []

/-- Result of running one lifecycle method: the component state, the
registry, and the events emitted, in order. -/
structure StepResult where
  state : State
  registry : Registry
  events : List Event
deriving Repr

/-- Method `Observer.importIntersectionObserverPolyfill` (`index.tsx` 154-166):
returns at once if `this.state.intersectionObserverReady` is truthy (only
`some true` is); otherwise, if `needsPolyfill() && this.props.importPolyfill`,
logs and awaits the dynamic `import('intersection-observer')`; finally sets
`intersectionObserverReady: true`. -/
def importIntersectionObserverPolyfill (env : Window) (p : Props)
    (s : State) : State × List Event :=
  if s.intersectionObserverReady = some true then (s, [])
  else
    ({ s with intersectionObserverReady := some true },
     if needsPolyfill env && p.importPolyfill then
       [Event.consoleLog, Event.shimImported]
     else [])

/-- Method `Observer.observeNode` (`index.tsx` 114-129): returns early when
`forwardedRef.current` is absent; otherwise calls
`observe(current, handleChange, \x7bthreshold, root, rootMargin\x7d, rootId)`. -/
def observeNode (p : Props) (r : Registry) : Registry × List Event :=
  match p.forwardedRef.current with
  | none => (r, [])
  | some n =>
      (registryObserveOp r n (configKey p),
       [Event.registryObserve n (configKey p)])

/-- Method `Observer.componentDidMount` (`index.tsx` 68-83). When
`NODE_ENV !== 'production'`, `invariant(...)` throws if
`forwardedRef.current` is absent, aborting the rest of the (async) method;
then the polyfill step is awaited, and `observeNode` runs only if
`forwardedRef.current` is present. `production` is the build flag. -/
def componentDidMount (env : Window) (production : Bool) (p : Props)
    (s : State) (r : Registry) : StepResult :=
  if production = false ∧ p.forwardedRef.current = none then
    ⟨s, r, [Event.warn]⟩
  else
    let si := importIntersectionObserverPolyfill env p s
    match p.forwardedRef.current with
    | some _ =>
        let ro := observeNode p r
        ⟨si.1, ro.1, si.2 ++ ro.2⟩
    | none => ⟨si.1, r, si.2⟩

/-- Method `Observer.componentDidUpdate` (`index.tsx` 85-106): awaits the polyfill
step; if `rootMargin`, `forwardedRef.current` identity, or `threshold`
changed versus `prevProps`, calls `unobserve(this.props.forwardedRef.current)`
(the NEW current) then `observeNode()`; then, if `inView` changed and is now
`true` with `triggerOnce` set, calls `unobserve(this.props.forwardedRef.current)`. -/
def componentDidUpdate (env : Window) (prevProps : Props)
    (prevState : State) (p : Props) (s : State) (r : Registry) :
    StepResult :=
  let si := importIntersectionObserverPolyfill env p s
  let step2 :
      Registry × List Event :=
    if prevProps.rootMargin ≠ p.rootMargin ∨
        prevProps.forwardedRef.current ≠ p.forwardedRef.current ∨
        prevProps.threshold ≠ p.threshold then
      let r1 := registryUnobserveOp r p.forwardedRef.current
      let ro := observeNode p r1
      (ro.1, Event.registryUnobserve p.forwardedRef.current :: ro.2)
    else (r, [])
  let step3 :
      Registry × List Event :=
    if prevState.inView ≠ s.inView ∧ (s.inView = true ∧ p.triggerOnce = true)
    then
      (registryUnobserveOp step2.1 p.forwardedRef.current,
       [Event.registryUnobserve p.forwardedRef.current])
    else (step2.1, [])
  ⟨si.1, step3.1, si.2 ++ step2.2 ++ step3.2⟩

/-- Method `Observer.componentWillUnmount` (`index.tsx` 108-112): if
`forwardedRef.current` is present, `unobserve` it. -/
def componentWillUnmount (p : Props) (r : Registry) :
    Registry × List Event :=
  match p.forwardedRef.current with
  | none => (r, [])
  | some n =>
      (registryUnobserveOp r (some n), [Event.registryUnobserve (some n)])

/-- Method `Observer.handleChange` (`index.tsx` 131-136): `setState(\x7binView\x7d)`
and, if `this.props.onChange` is supplied, call it with `inView`. -/
def handleChange (p : Props) (s : State) (v : Bool) : State × List Event :=
  ({ s with inView := v },
   if p.onChange.isSome then [Event.onChangeCall v] else [])

/-- A visibility-change delivery followed by the React lifecycle update it
causes: `handleChange v` runs, then `componentDidUpdate` with the same props
and the previous state as `prevProps` / `prevState`. -/
def deliverAndUpdate (env : Window) (p : Props) (s : State) (r : Registry)
    (v : Bool) : StepResult :=
  let hc := handleChange p s v
  let u := componentDidUpdate env p s p hc.1 r
  ⟨u.state, u.registry, hc.2 ++ u.events⟩

/-- What `render` returns: either the render function's result directly, or
the opaque children payload wrapped in a `Fragment`. -/
inductive Rendered where
  | direct (x : Nat)
  | fragment (payload : Option Nat)
deriving DecidableEq, Repr

/-- Method `Observer.render` (`index.tsx` 138-152): if `children` is a function it
is called with `\x7binView, forwardedRef\x7d` and its result returned;
otherwise `<Fragment>\x7bchildren\x7d</Fragment>` is returned. -/
def render (p : Props) (s : State) : Rendered :=
  match p.children with
  | Children.renderFn f => Rendered.direct (f s.inView p.forwardedRef)
  | Children.nodeChild x => Rendered.fragment x

/-- The single ref object created by `createRef<any>()` when the class body
of `Observer` is evaluated (`static defaultProps`, `index.tsx` 56-61): one
allocation for the whole class. -/
def defaultForwardedRef : RefObject := ⟨0, none⟩

/-- The props an owner passes to `Observer`; `none` in an optional field
means the owner did not supply it and React substitutes the entry from
`static defaultProps`. -/
structure SuppliedProps where
  children : Children
  forwardedRef : Option RefObject
  threshold : Option Int
  triggerOnce : Option Bool
  root : Option Nat
  rootMargin : Option String
  rootId : Option String
  onChange : Option Nat
  importPolyfill : Option Bool

/-- React's `defaultProps` merge for `Observer`: each field the owner left
undefined is taken from `static defaultProps`
(`forwardedRef: createRef()`, `importPolyfill: false`, `threshold: 0`,
`triggerOnce: false`). -/
def applyDefaultProps (q : SuppliedProps) : Props :=
  { children := q.children
    forwardedRef := q.forwardedRef.getD defaultForwardedRef
    threshold := q.threshold.getD 0
    triggerOnce := q.triggerOnce.getD false
    root := q.root
    rootMargin := q.rootMargin
    rootId := q.rootId
    onChange := q.onChange
    importPolyfill := q.importPolyfill.getD false }

/-- A host with all three native capabilities present. -/
def envAll : Window := ⟨true, true, true⟩

/-- A host with none of the native capabilities. -/
def envBare : Window := ⟨false, false, false⟩

/-- A baseline set of merged props: opaque children, a ref whose `current`
is node `5`, and the `defaultProps` values everywhere else. -/
def baseProps : Props :=
  { children := Children.nodeChild none
    forwardedRef := ⟨1, some 5⟩
    threshold := 0
    triggerOnce := false
    root := none
    rootMargin := none
    rootId := none
    onChange := none
    importPolyfill := false }

/-- Baseline props with `importPolyfill` switched on. -/
def polyProps : Props := { baseProps with importPolyfill := true }

/-- Baseline props with an empty ref (`current` is `null`). -/
def noNodeProps : Props := { baseProps with forwardedRef := ⟨2, none⟩ }

/-- Baseline props with `triggerOnce` set and an `onChange` callback. -/
def triggerProps : Props :=
  { baseProps with triggerOnce := true, onChange := some 0 }

/-- Baseline props with a changed `rootMargin`. -/
def marginProps : Props := { baseProps with rootMargin := some "10px" }

/-- Baseline props whose ref currently holds node `1`. -/
def prevRefProps : Props := { baseProps with forwardedRef := ⟨1, some 1⟩ }

/-- Baseline props whose ref currently holds node `2`. -/
def newRefProps : Props := { baseProps with forwardedRef := ⟨1, some 2⟩ }

/-- Baseline props whose children is a render function returning `7`. -/
def fnChildProps : Props :=
  { baseProps with children := Children.renderFn (fun _ _ => 7) }

/-- Owner-supplied props that leave every optional field undefined. -/
def suppliedBare (c : Children) : SuppliedProps :=
  ⟨c, none, none, none, none, none, none, none, none⟩

/-- The polyfill step never changes `inView`. -/
theorem importPolyfill_preserves_inView (env : Window) (p : Props)
    (s : State) :
    (importIntersectionObserverPolyfill env p s).1.inView = s.inView := by
  by_cases h : s.intersectionObserverReady = some true <;>
    simp [importIntersectionObserverPolyfill, h]

/-- Every event emitted by the polyfill step is the log or the shim import. -/
theorem mem_importPolyfill_events (env : Window) (p : Props) (s : State)
    (e : Event) (he : e ∈ (importIntersectionObserverPolyfill env p s).2) :
    e = Event.consoleLog ∨ e = Event.shimImported := by
  by_cases h : s.intersectionObserverReady = some true
  · simp [importIntersectionObserverPolyfill, h] at he
  · simp only [importIntersectionObserverPolyfill, h, if_false, if_neg] at he
    rcases hb : needsPolyfill env && p.importPolyfill with _ | _ <;>
      simp [hb] at he
    · exact he

/-- Removing a node from the registry removes every registration for it. -/
theorem not_registered_after_unobserve (r : Registry) (n : Nat) :
    n ∉ registeredNodes (registryUnobserveOp r (some n)) := by
  simp only [registeredNodes, registryUnobserveOp, List.mem_map,
    List.mem_filter, decide_eq_true_eq]
  rintro ⟨e, ⟨_, hne⟩, hfst⟩
  exact hne (by simp [hfst])

/-- Filtering for node `n` after filtering it away yields nothing. -/
theorem filter_eq_of_filter_ne (r : Registry) (n : Nat) :
    (r.filter (fun e => e.1 ≠ n)).filter (fun e => e.1 = n) = [] := by
  induction r with
  | nil => rfl
  | cons e t ih => by_cases h : e.1 = n <;> simp [List.filter_cons, h, ih]

/-- C4: `needsPolyfill` returns `false` exactly when the host exposes all
three native capabilities (observer constructor, record type, and the
intersection-ratio field on the record prototype), and returns `true` if
any one of the three is absent. -/
theorem needsPolyfill_false_iff_all_capabilities (w : Window) :
    (needsPolyfill w = false ↔
      w.hasIntersectionObserver = true ∧
        w.hasIntersectionObserverEntry = true ∧
        w.hasIntersectionRatioField = true) ∧
    ((w.hasIntersectionObserver = false ∨
        w.hasIntersectionObserverEntry = false ∨
        w.hasIntersectionRatioField = false) → needsPolyfill w = true) := by
  obtain ⟨a, b, c⟩ := w
  cases a <;> cases b <;> cases c <;> simp [needsPolyfill]

/-- Witness for C4: with only the intersection-ratio field absent,
`needsPolyfill` returns `true`. -/
theorem needsPolyfill_false_iff_all_capabilities_witness :
    needsPolyfill ⟨true, true, false⟩ = true :=
  (needsPolyfill_false_iff_all_capabilities ⟨true, true, false⟩).2
    (Or.inr (Or.inr rfl))

/-- C5: once the readiness flag is `true` the polyfill step is an idempotent
no-op (state unchanged, no events), and after the step runs by any path the
readiness flag is `true` permanently. -/
theorem importPolyfill_once_and_permanent (env : Window) (p : Props)
    (s : State) :
    (s.intersectionObserverReady = some true →
      importIntersectionObserverPolyfill env p s = (s, [])) ∧
    (importIntersectionObserverPolyfill env p s).1.intersectionObserverReady
      = some true := by
  constructor
  · intro h
    simp [importIntersectionObserverPolyfill, h]
  · by_cases h : s.intersectionObserverReady = some true <;>
      simp [importIntersectionObserverPolyfill, h]

/-- Witness for C5: on a ready state the step returns the state unchanged
with no events. -/
theorem importPolyfill_once_and_permanent_witness :
    (⟨false, some true⟩ : State).intersectionObserverReady = some true ∧
    importIntersectionObserverPolyfill envAll baseProps ⟨false, some true⟩
      = (⟨false, some true⟩, []) :=
  ⟨rfl,
   (importPolyfill_once_and_permanent envAll baseProps ⟨false, some true⟩).1
     rfl⟩

/-- C8: every visibility-change delivery updates the local `inView` state to
the delivered boolean and, exactly when `onChange` was supplied, invokes it
synchronously with that boolean — a direct pass-through, nothing else is
emitted. -/
theorem handleChange_passes_through (p : Props) (s : State) (v : Bool) :
    (handleChange p s v).1.inView = v ∧
    (handleChange p s v).2
      = (if p.onChange.isSome then [Event.onChangeCall v] else []) :=
  ⟨rfl, rfl⟩

/-- C9: on every render pass, function children are invoked with the current
`inView` and `forwardedRef` and their result returned; opaque children are
rendered unchanged (in a `Fragment`), independent of the current `inView`. -/
theorem render_contract (p : Props) (s : State) :
    (∀ f, p.children = Children.renderFn f →
      render p s = Rendered.direct (f s.inView p.forwardedRef)) ∧
    (∀ x, p.children = Children.nodeChild x →
      render p s = Rendered.fragment x ∧
        ∀ s2 : State, render p s2 = render p s) := by
  constructor
  · intro f h
    simp [render, h]
  · intro x h
    exact ⟨by simp [render, h], fun s2 => by simp [render, h]⟩

/-- Witness for C9: a function child is invoked and its result returned; an
opaque child renders identically for two different states. -/
theorem render_contract_witness :
    render fnChildProps initialState = Rendered.direct 7 ∧
    render baseProps initialState = render baseProps ⟨true, none⟩ :=
  ⟨(render_contract fnChildProps initialState).1 (fun _ _ => 7) rfl,
   ((render_contract baseProps ⟨true, none⟩).2 none rfl).2 initialState⟩

/-- C10: all instances constructed without an explicit `forwardedRef` share
the single ref object created when `static defaultProps` was evaluated, and
receive the defaults `threshold = 0`, `triggerOnce = false`,
`importPolyfill = false`. -/
theorem defaultProps_shared_and_values (q1 q2 : SuppliedProps)
    (h1 : q1.forwardedRef = none) (h2 : q2.forwardedRef = none)
    (ht : q1.threshold = none) (htr : q1.triggerOnce = none)
    (hip : q1.importPolyfill = none) :
    (applyDefaultProps q1).forwardedRef = (applyDefaultProps q2).forwardedRef ∧
    (applyDefaultProps q1).forwardedRef = defaultForwardedRef ∧
    (applyDefaultProps q1).threshold = 0 ∧
    (applyDefaultProps q1).triggerOnce = false ∧
    (applyDefaultProps q1).importPolyfill = false := by
  simp [applyDefaultProps, h1, h2, ht, htr, hip]

/-- Witness for C10: two owners supplying nothing optional get the same
default ref object and default scalar props. -/
theorem defaultProps_shared_and_values_witness :
    (suppliedBare (Children.nodeChild none)).forwardedRef = none ∧
    ((applyDefaultProps (suppliedBare (Children.nodeChild none))).forwardedRef
        = (applyDefaultProps
            (suppliedBare (Children.nodeChild (some 3)))).forwardedRef ∧
      (applyDefaultProps
          (suppliedBare (Children.nodeChild none))).forwardedRef
        = defaultForwardedRef ∧
      (applyDefaultProps (suppliedBare (Children.nodeChild none))).threshold
        = 0 ∧
      (applyDefaultProps
          (suppliedBare (Children.nodeChild none))).triggerOnce = false ∧
      (applyDefaultProps
          (suppliedBare (Children.nodeChild none))).importPolyfill = false) :=
  ⟨rfl,
   defaultProps_shared_and_values (suppliedBare (Children.nodeChild none))
     (suppliedBare (Children.nodeChild (some 3))) rfl rfl rfl rfl rfl⟩

/-- C6: with the node reference missing at mount time, non-production builds
raise the warning; production builds emit no warning, never register the
node, and leave `inView` unchanged (hence permanently false from the initial
state). -/
theorem mount_missing_node (env : Window) (production : Bool) (p : Props)
    (s : State) (r : Registry) (h : p.forwardedRef.current = none) :
    (production = false →
      Event.warn ∈ (componentDidMount env production p s r).events) ∧
    (production = true →
      Event.warn ∉ (componentDidMount env production p s r).events) ∧
    (∀ n k, Event.registryObserve n k
      ∉ (componentDidMount env production p s r).events) ∧
    (componentDidMount env production p s r).registry = r ∧
    (componentDidMount env production p s r).state.inView = s.inView := by
  cases production with
  | false => simp [componentDidMount, h]
  | true =>
      have hred : componentDidMount env true p s r
          = ⟨(importIntersectionObserverPolyfill env p s).1, r,
             (importIntersectionObserverPolyfill env p s).2⟩ := by
        simp [componentDidMount, h]
      rw [hred]
      refine ⟨fun hc => absurd hc (by simp), fun _ hmem => ?_,
        fun n k hmem => ?_, rfl, importPolyfill_preserves_inView env p s⟩
      · rcases mem_importPolyfill_events env p s _ hmem with he | he <;>
          simp at he
      · rcases mem_importPolyfill_events env p s _ hmem with he | he <;>
          simp at he

/-- Witness for C6: a production mount with an empty ref leaves the registry
empty and `inView` false. -/
theorem mount_missing_node_witness :
    noNodeProps.forwardedRef.current = none ∧
    (componentDidMount envAll true noNodeProps initialState []).registry
      = [] :=
  ⟨rfl, (mount_missing_node envAll true noNodeProps initialState []
      rfl).2.2.2.1⟩

/-- C7: on unmount with a node handle present, the node is unconditionally
deregistered: the unobserve call is issued, the node no longer appears in
the registry, and no further visibility delivery for it invokes any
callback. -/
theorem unmount_deregisters (p : Props) (r : Registry) (n : Nat)
    (h : p.forwardedRef.current = some n) :
    Event.registryUnobserve (some n) ∈ (componentWillUnmount p r).2 ∧
    n ∉ registeredNodes (componentWillUnmount p r).1 ∧
    ∀ v, registryDeliver (componentWillUnmount p r).1 n v = [] := by
  have hred : componentWillUnmount p r
      = (registryUnobserveOp r (some n),
         [Event.registryUnobserve (some n)]) := by
    simp [componentWillUnmount, h]
  rw [hred]
  refine ⟨by simp, not_registered_after_unobserve r n, fun v => ?_⟩
  simp [registryDeliver, not_registered_after_unobserve r n]

/-- Witness for C7: unmounting while node `5` is registered removes it and
makes subsequent deliveries for it vanish. -/
theorem unmount_deregisters_witness :
    baseProps.forwardedRef.current = some 5 ∧
    registryDeliver
      (componentWillUnmount baseProps [(5, configKey baseProps)]).1 5 true
      = [] :=
  ⟨rfl, (unmount_deregisters baseProps [(5, configKey baseProps)] 5
      rfl).2.2 true⟩

/-- Under the C1 scenario (polyfill needed, import opted in, fresh state)
the mount trace is the warning alone, the polyfill events alone, or the
polyfill events followed by exactly one observe call. -/
theorem componentDidMount_events_shape (env : Window) (production : Bool)
    (p : Props) (s : State) (r : Registry)
    (hn : needsPolyfill env = true) (hip : p.importPolyfill = true)
    (hs : s.intersectionObserverReady = none) :
    (componentDidMount env production p s r).events = [Event.warn] ∨
    (componentDidMount env production p s r).events
      = [Event.consoleLog, Event.shimImported] ∨
    ∃ m, (componentDidMount env production p s r).events
      = [Event.consoleLog, Event.shimImported,
         Event.registryObserve m (configKey p)] := by
  have hpoly : importIntersectionObserverPolyfill env p s
      = ({ s with intersectionObserverReady := some true },
         [Event.consoleLog, Event.shimImported]) := by
    simp [importIntersectionObserverPolyfill, hs, hn, hip]
  by_cases hpc : production = false ∧ p.forwardedRef.current = none
  · left
    simp [componentDidMount, hpc]
  · cases hc : p.forwardedRef.current with
    | none =>
        right; left
        have hp : ¬production = false := fun hf => hpc ⟨hf, hc⟩
        simp [componentDidMount, hp, hc, hpoly]
    | some m =>
        right; right
        exact ⟨m, by simp [componentDidMount, hpc, hc, hpoly, observeNode]⟩

/-- C1: when `importPolyfill` is on and `needsPolyfill()` is true, the mount
trace never has a registry observe call at a position at or before the
shim-import resolution: registration is deferred until the shim step
resolves. -/
theorem mount_no_observe_before_shim (env : Window) (production : Bool)
    (p : Props) (s : State) (r : Registry)
    (hn : needsPolyfill env = true) (hip : p.importPolyfill = true)
    (hs : s.intersectionObserverReady = none) :
    ∀ (i j : Nat) (n : Nat) (k : ConfigKey),
      (componentDidMount env production p s r).events[i]?
        = some (Event.registryObserve n k) →
      (componentDidMount env production p s r).events[j]?
        = some Event.shimImported → j < i := by
  intro i j n k h1 h2
  rcases componentDidMount_events_shape env production p s r hn hip hs with
    hev | hev | ⟨m, hev⟩ <;> rw [hev] at h1 h2
  · rcases i with _ | i <;> simp at h1
  · rcases i with _ | _ | i <;> simp at h1
  · rcases i with _ | _ | _ | i <;> rcases j with _ | _ | _ | j <;> simp_all

/-- Witness for C1: a concrete mount in a bare environment with the import
flag on places the only observe call strictly after the shim import. -/
theorem mount_no_observe_before_shim_witness :
    needsPolyfill envBare = true ∧ polyProps.importPolyfill = true ∧
    initialState.intersectionObserverReady = none ∧ (1 : Nat) < 2 :=
  ⟨rfl, rfl, rfl,
   mount_no_observe_before_shim envBare true polyProps initialState [] rfl
     rfl rfl 2 1 5 (configKey polyProps) (by decide) (by decide)⟩

/-- C3: a delivery of `inView = true` with `triggerOnce` set flips the state
to `inView = true`, invokes the owner's `onChange` with `true` exactly once
across the delivery and the ensuing lifecycle update, and deregisters the
node so no further deliveries reach any callback. -/
theorem triggerOnce_transition (env : Window) (p : Props) (s : State)
    (r : Registry) (n c : Nat)
    (hready : s.intersectionObserverReady = some true)
    (hiv : s.inView = false)
    (htr : p.triggerOnce = true)
    (href : p.forwardedRef.current = some n)
    (hoc : p.onChange = some c) :
    (deliverAndUpdate env p s r true).state.inView = true ∧
    (deliverAndUpdate env p s r true).events.count (Event.onChangeCall true)
      = 1 ∧
    n ∉ registeredNodes (deliverAndUpdate env p s r true).registry ∧
    ∀ v, registryDeliver (deliverAndUpdate env p s r true).registry n v
      = [] := by
  have hred : deliverAndUpdate env p s r true
      = ⟨{ s with inView := true },
         registryUnobserveOp r (some n),
         [Event.onChangeCall true, Event.registryUnobserve (some n)]⟩ := by
    simp [deliverAndUpdate, handleChange, componentDidUpdate,
      importIntersectionObserverPolyfill, hready, hiv, htr, href, hoc]
  rw [hred]
  refine ⟨rfl, ?_, not_registered_after_unobserve r n, fun v => ?_⟩
  · simp [List.count_cons]
  · simp [registryDeliver, not_registered_after_unobserve r n]

/-- Witness for C3: a visible-immediately delivery on a mounted
`triggerOnce` instance turns `inView` true. -/
theorem triggerOnce_transition_witness :
    (⟨false, some true⟩ : State).inView = false ∧
    (deliverAndUpdate envAll triggerProps ⟨false, some true⟩
        [(5, configKey triggerProps)] true).state.inView = true :=
  ⟨rfl,
   (triggerOnce_transition envAll triggerProps ⟨false, some true⟩
      [(5, configKey triggerProps)] 5 0 rfl rfl rfl rfl rfl).1⟩

/-- Counterexample for C2: when the changed configuration field is the node
handle identity (ref `current` goes from node `1` to node `2`),
`componentDidUpdate` calls `unobserve` on the NEW current, so the old
registration of node `1` is NOT removed — both nodes end up registered. -/
theorem reconfigure_counterexample :
    prevRefProps.forwardedRef.current ≠ newRefProps.forwardedRef.current ∧
    (componentDidUpdate envAll prevRefProps initialState newRefProps
        initialState [(1, configKey prevRefProps)]).registry
      = [(2, configKey newRefProps), (1, configKey prevRefProps)] ∧
    (1, configKey prevRefProps) ∈
      (componentDidUpdate envAll prevRefProps initialState newRefProps
        initialState [(1, configKey prevRefProps)]).registry := by
  decide

/-- C2 (amended): for a lifecycle update whose configuration change is in
`rootMargin` or `threshold` while the node handle is unchanged, the old
registration is removed and exactly one registration of the node under the
new configuration exists afterwards; when the node handle itself changed,
the code unobserves the new handle, leaving the old registration in place. -/
theorem reconfigure_same_node (env : Window) (pPrev p : Props) (s : State)
    (r : Registry) (n : Nat)
    (_hprev : pPrev.forwardedRef.current = some n)
    (hcur : p.forwardedRef.current = some n)
    (hch : pPrev.rootMargin ≠ p.rootMargin ∨ pPrev.threshold ≠ p.threshold) :
    (componentDidUpdate env pPrev s p s r).registry.filter
        (fun e => e.1 = n)
      = [(n, configKey p)] ∧
    (n, configKey pPrev) ∉ (componentDidUpdate env pPrev s p s r).registry
      := by
  have hkey : configKey pPrev ≠ configKey p := by
    intro hk
    rcases hch with hm | ht2
    · exact hm (congrArg ConfigKey.rootMargin hk)
    · exact ht2 (congrArg ConfigKey.threshold hk)
  have hcond2 : ¬pPrev.rootMargin = p.rootMargin ∨
      ¬pPrev.forwardedRef.current = some n ∨
      ¬pPrev.threshold = p.threshold := by
    rcases hch with hm | ht2
    · exact Or.inl hm
    · exact Or.inr (Or.inr ht2)
  have hred : (componentDidUpdate env pPrev s p s r).registry
      = (n, configKey p) :: r.filter (fun e => e.1 ≠ n) := by
    simp [componentDidUpdate, hcur, observeNode, registryObserveOp,
      registryUnobserveOp, hcond2]
  rw [hred]
  constructor
  · simp [List.filter_cons, filter_eq_of_filter_ne]
  · intro hmem
    rcases List.mem_cons.mp hmem with he | hmem2
    · exact hkey (congrArg Prod.snd he)
    · rcases List.mem_filter.mp hmem2 with ⟨_, hne⟩
      simp at hne

/-- Witness for the amended C2: changing only `rootMargin` moves node `5`
from its old key to exactly one registration under the new key. -/
theorem reconfigure_same_node_witness :
    baseProps.forwardedRef.current = some 5 ∧
    baseProps.rootMargin ≠ marginProps.rootMargin ∧
    (componentDidUpdate envAll baseProps initialState marginProps
        initialState [(5, configKey baseProps)]).registry.filter
        (fun e => e.1 = 5)
      = [(5, configKey marginProps)] :=
  ⟨rfl, by decide,
   (reconfigure_same_node envAll baseProps marginProps initialState
      [(5, configKey baseProps)] 5 rfl rfl (Or.inl (by decide))).1⟩

end ReactIntersectionObserver
